import Mathlib

/-!
Shallow embedding of `pyblooming/bitmap.py`: the `Bitmap` class, a
bit-addressable view over a byte buffer, optionally backed by a file.
Buffers are lists of byte values; Python's dynamic values (indices and
set-values may be of any type) are modelled by `PyVal`; errors raised by
the Python code are modelled by `PyErr` inside `Except`.
-/

namespace PyBlooming

/-- Error kinds raised by the Python code: `TypeError` for a non-integer
index, `IndexError` for out-of-range, the three `ValueError`s the class
raises, and the `TypeError`/`AttributeError` that results from using
`self.mmap` after `close` has set it to `None`. -/
inductive PyErr where
  | typeError
  | indexError
  | noFilename
  | nonBitmap
  | sizeMismatch
  | noneAccess
deriving DecidableEq

/-- Python values that can be passed as the index or value argument of
`__getitem__` / `__setitem__`: integers, booleans (which are `int`
instances in Python), floats (as a pair numerator/denominator stand-in),
strings and `None`. -/
inductive PyVal where
  | intVal (i : Int)
  | boolVal (b : Bool)
  | floatVal (num den : Int)
  | strVal (s : String)
  | noneVal
deriving DecidableEq

/-- `isinstance(x, (int, long))`: true for integers and booleans
(Python's `bool` is a subclass of `int`). -/
def isIntInstance : PyVal → Bool
  | .intVal _ => true
  | .boolVal _ => true
  | _ => false

/-- The integer value of an `int` instance (junk `0` on other values,
which the code never reaches past the `isinstance` check). -/
def pyToInt : PyVal → Int
  | .intVal i => i
  | .boolVal b => if b then 1 else 0
  | _ => 0

/-- Python truthiness of a value, as used by `if val:`. -/
def pyTruthy : PyVal → Bool
  | .intVal i => i != 0
  | .boolVal b => b
  | .floatVal num _ => num != 0
  | .strVal s => !s.isEmpty
  | .noneVal => false

/-- The state of a `Bitmap` instance: the fields assigned in
`__init__` / `close`.  `mmap` is `none` exactly when `self.mmap is None`
(after `close`); a live mapping is its list of byte values.  `fileobj`
is `none` when `self.fileobj is None` (anonymous maps, or after
`close`). -/
structure Bitmap where
  anonymous : Bool
  size : Nat
  mmap : Option (List Nat)
  fileobj : Option Unit
deriving DecidableEq

/-- The bitmap produced by `Bitmap(size)`: an anonymous map of `size`
zero bytes. -/
def mkAnonymous (size : Nat) : Bitmap :=
  { anonymous := true, size := size, mmap := some (List.replicate size 0), fileobj := none }

/-- `Bitmap.__len__`: `8 * self.size`. -/
def Bitmap.len (b : Bitmap) : Nat := 8 * b.size

/-- `Bitmap.__getitem__(idx)`: type check, `byte = idx / 8` (Python 2
floor division; `/` and `%` on `Int` here are Euclidean and agree with
Python's floor semantics for the positive divisor `8`), range check,
then `(ord(self.mmap[byte]) >> (7 - idx % 8)) & 1`.  Reading
`self.mmap[byte]` when `mmap` is `None` raises (`noneAccess`). -/
def Bitmap.getitem (b : Bitmap) (idx : PyVal) : Except PyErr Nat :=
  if !isIntInstance idx then .error .typeError
  else
    let i := pyToInt idx
    let byte := i / 8
    if byte < 0 ∨ (b.size : Int) ≤ byte then .error .indexError
    else
      match b.mmap with
      | none => .error .noneAccess
      | some buf =>
        let byteOff := (7 - i % 8).toNat
        let byteVal := buf.getD byte.toNat 0
        .ok ((byteVal >>> byteOff) &&& 1)

/-- `Bitmap.__setitem__(idx, val)`: same type and range checks as
`__getitem__`, then sets bit `7 - idx % 8` of byte `idx / 8` when `val`
is truthy and clears it otherwise (`x & ~m` is written as the equivalent
`x ^^^ (x &&& m)`, identical on non-negative integers), and returns
`val` itself together with the updated state. -/
def Bitmap.setitem (b : Bitmap) (idx val : PyVal) : Except PyErr (PyVal × Bitmap) :=
  if !isIntInstance idx then .error .typeError
  else
    let i := pyToInt idx
    let byte := i / 8
    if byte < 0 ∨ (b.size : Int) ≤ byte then .error .indexError
    else
      match b.mmap with
      | none => .error .noneAccess
      | some buf =>
        let byteOff := (7 - i % 8).toNat
        let byteVal := buf.getD byte.toNat 0
        let newVal :=
          if pyTruthy val then byteVal ||| (1 <<< byteOff)
          else byteVal ^^^ (byteVal &&& (1 <<< byteOff))
        .ok (val, { b with mmap := some (buf.set byte.toNat newVal) })

/-- `Bitmap.flush()`: `if not self.anonymous: self.mmap.flush()` (which
raises when `mmap` is `None`), then `if self.fileobj: self.fileobj.flush()`.
Neither call changes the modelled state. -/
def Bitmap.flushOp (b : Bitmap) : Except PyErr Unit :=
  if !b.anonymous then
    match b.mmap with
    | none => .error .noneAccess
    | some _ => .ok ()
  else .ok ()

/-- `Bitmap.close()`: `self.flush()`, then `self.mmap.close()` (raises
when `mmap` is already `None`), `self.mmap = None`, and for
non-anonymous maps `self.fileobj.close(); self.fileobj = None`. -/
def Bitmap.close (b : Bitmap) : Except PyErr Bitmap :=
  match b.flushOp with
  | .error e => .error e
  | .ok _ =>
    match b.mmap with
    | none => .error .noneAccess
    | some _ => .ok { b with mmap := none, fileobj := none }

/-- The argument of `__or__` / `__and__` as the Python runtime sees it:
either a `Bitmap` instance or some other object carrying a `size`
attribute. -/
inductive PyObj where
  | bm (b : Bitmap)
  | nonBitmapWithSize (size : Nat)
deriving DecidableEq

/-- `isinstance(x, Bitmap)`. -/
def isBitmapInstance : PyObj → Bool
  | .bm _ => true
  | .nonBitmapWithSize _ => false

/-- The `size` attribute of the operand object. -/
def objSize : PyObj → Nat
  | .bm b => b.size
  | .nonBitmapWithSize s => s

/-- The loop `for i in xrange(self.size): bitmap.mmap[i] =
chr(op(ord(self.mmap[i]), ord(bitmap.mmap[i])))` where `bitmap` has just
been rebound to the fresh zeroed `Bitmap(self.size)`: each output byte
is computed from `self`'s byte and the *current* (still zero) output
byte. -/
def combineLoop (op : Nat → Nat → Nat) (selfBuf : List Nat) (size : Nat) : List Nat :=
  (List.range size).foldl
    (fun out i => out.set i (op (selfBuf.getD i 0) (out.getD i 0)))
    (List.replicate size 0)

/-- `Bitmap.__or__(bitmap)`: guard `isinstance(self, Bitmap)` (note:
the receiver, not the argument, is tested), size-mismatch guard reading
the argument's `size` attribute, then rebinds `bitmap` to a fresh
`Bitmap(self.size)` and runs the combining loop with bitwise or.
If `self.mmap` is `None` the loop's read of `self.mmap[i]` raises,
unless `size` is `0` and the loop body never runs. -/
def Bitmap.orOp (self : Bitmap) (other : PyObj) : Except PyErr Bitmap :=
  if !isBitmapInstance (.bm self) then .error .nonBitmap
  else if self.size ≠ objSize other then .error .sizeMismatch
  else
    match self.mmap with
    | some buf =>
      .ok { mkAnonymous self.size with mmap := some (combineLoop (· ||| ·) buf self.size) }
    | none =>
      if self.size = 0 then .ok (mkAnonymous 0) else .error .noneAccess

/-- `Bitmap.__and__(bitmap)`: identical to `__or__` with bitwise and. -/
def Bitmap.andOp (self : Bitmap) (other : PyObj) : Except PyErr Bitmap :=
  if !isBitmapInstance (.bm self) then .error .nonBitmap
  else if self.size ≠ objSize other then .error .sizeMismatch
  else
    match self.mmap with
    | some buf =>
      .ok { mkAnonymous self.size with mmap := some (combineLoop (· &&& ·) buf self.size) }
    | none =>
      if self.size = 0 then .ok (mkAnonymous 0) else .error .noneAccess

/-- A filesystem: path names to file contents, `none` for an absent
file. -/
abbrev FS : Type := String → Option (List Nat)

/-- `os.path.getsize` / reading a file's bytes: look the path up. -/
def fsGet (fs : FS) (name : String) : Option (List Nat) := fs name

/-- Writing a file's contents back under its path. -/
def fsSet (fs : FS) (name : String) (content : List Nat) : FS :=
  fun n => if n = name then some content else fs n

/-- `if not filename:`: `None` and the empty string are falsy. -/
def filenameFalsy : Option String → Bool
  | none => true
  | some s => s.isEmpty

/-- The zero-padding loop of `__init__`:
`size_diff = length - getsize(...); while size_diff > 0: write(chr(0) * min(size_diff, 100000)); flush(); size_diff = ...`.
Each pass appends `min size_diff 100000` zero bytes to the file opened
in append mode. -/
def padFile (file : List Nat) (length : Nat) : List Nat :=
  let sizeDiff := length - file.length
  if h : 0 < sizeDiff then
    padFile (file ++ List.replicate (min sizeDiff 100000) 0) length
  else file
termination_by length - file.length
decreasing_by
  simp only [List.length_append, List.length_replicate]
  omega

/-- `Bitmap.__init__(length, anonymous, filename)` acting on a
filesystem.  Anonymous: a fresh zeroed map.  File-backed: raise
`ValueError` when `filename` is falsy, else `open(filename, "a+")`
(creating an empty file when absent), run the padding loop, and map the
first `length` bytes.  The resulting filesystem is returned alongside,
also on the error path, where it is untouched. -/
def bitmapInit (length : Nat) (anonymous : Bool) (filename : Option String) (fs : FS) :
    (Except PyErr Bitmap) × FS :=
  if anonymous then (.ok (mkAnonymous length), fs)
  else if filenameFalsy filename then (.error .noFilename, fs)
  else
    let name := filename.getD ""
    let contents := (fsGet fs name).getD []
    let padded := padFile contents length
    let fs' := fsSet fs name padded
    (.ok { anonymous := false, size := length, mmap := some (padded.take length),
           fileobj := some () }, fs')

/-- `r` is an error result. -/
def failsE {α : Type} : Except PyErr α → Bool
  | .error _ => true
  | .ok _ => false

/-! ### Helper lemmas -/

/-- Extracting a single bit: `(x >> k) & 1` is the indicator of
`x.testBit k`. -/
theorem shiftr_and_one (x k : Nat) : (x >>> k) &&& 1 = (x.testBit k).toNat := by
  rw [Nat.and_one_is_mod, Nat.shiftRight_eq_div_pow, Nat.testBit_to_div_mod]
  rcases Nat.mod_two_eq_zero_or_one (x / 2 ^ k) with h | h <;> simp [h]

/-- Setting bit `k` makes bit `k` true. -/
theorem setBit_testBit_self (x k : Nat) : (x ||| (1 <<< k)).testBit k = true := by
  rw [Nat.one_shiftLeft, Nat.testBit_lor, Nat.testBit_two_pow_self, Bool.or_true]

/-- Setting bit `k` leaves bit `j ≠ k` alone. -/
theorem setBit_testBit_ne (x k j : Nat) (h : k ≠ j) :
    (x ||| (1 <<< k)).testBit j = x.testBit j := by
  rw [Nat.one_shiftLeft, Nat.testBit_lor, Nat.testBit_two_pow_of_ne h, Bool.or_false]

/-- Clearing bit `k` (via `x ^^^ (x &&& 2^k)`, the non-negative reading
of Python's `x & ~(1 << k)`) makes bit `k` false. -/
theorem clearBit_testBit_self (x k : Nat) : (x ^^^ (x &&& (1 <<< k))).testBit k = false := by
  rw [Nat.one_shiftLeft, Nat.testBit_xor, Nat.testBit_land, Nat.testBit_two_pow_self]
  cases x.testBit k <;> rfl

/-- Clearing bit `k` leaves bit `j ≠ k` alone. -/
theorem clearBit_testBit_ne (x k j : Nat) (h : k ≠ j) :
    (x ^^^ (x &&& (1 <<< k))).testBit j = x.testBit j := by
  rw [Nat.one_shiftLeft, Nat.testBit_xor, Nat.testBit_land, Nat.testBit_two_pow_of_ne h]
  cases x.testBit j <;> rfl

/-- On a live mapping and a valid `Nat` index, `__getitem__` reduces to
reading the addressed bit. -/
theorem getitem_ok (b : Bitmap) (buf : List Nat) (i : Nat)
    (hb : b.mmap = some buf) (hi : i < 8 * b.size) :
    b.getitem (.intVal i) = .ok ((buf.getD (i / 8) 0 >>> (7 - i % 8)) &&& 1) := by
  have hcond : ¬(((i : Nat) : Int) / 8 < 0 ∨ (b.size : Int) ≤ ((i : Nat) : Int) / 8) := by
    omega
  have e2 : ((((i : Nat) : Int)) / 8).toNat = i / 8 := by omega
  have e3 : ((7 : Int) - ((i : Nat) : Int) % 8).toNat = 7 - i % 8 := by omega
  simp only [Bitmap.getitem, isIntInstance, Bool.not_true, Bool.false_eq_true, if_false,
    pyToInt, hcond, hb, e2, e3]

/-- On a live mapping and a valid `Nat` index, `__setitem__` reduces to
returning `val` together with the state whose addressed byte has the
addressed bit set (truthy `val`) or cleared (falsy `val`). -/
theorem setitem_ok (b : Bitmap) (buf : List Nat) (i : Nat) (v : PyVal)
    (hb : b.mmap = some buf) (hi : i < 8 * b.size) :
    b.setitem (.intVal i) v = .ok (v,
      { b with mmap := some (buf.set (i / 8)
          (if pyTruthy v then buf.getD (i / 8) 0 ||| (1 <<< (7 - i % 8))
           else buf.getD (i / 8) 0 ^^^ (buf.getD (i / 8) 0 &&& (1 <<< (7 - i % 8))))) }) := by
  have hcond : ¬(((i : Nat) : Int) / 8 < 0 ∨ (b.size : Int) ≤ ((i : Nat) : Int) / 8) := by
    omega
  have e2 : ((((i : Nat) : Int)) / 8).toNat = i / 8 := by omega
  have e3 : ((7 : Int) - ((i : Nat) : Int) % 8).toNat = 7 - i % 8 := by omega
  simp only [Bitmap.setitem, isIntInstance, Bool.not_true, Bool.false_eq_true, if_false,
    pyToInt, hcond, hb, e2, e3]

/-- The padding loop, bounded by fuel `n ≥ length - file.length`:
it terminates with the original contents followed by exactly the missing
number of zero bytes (no padding when the file is already long enough). -/
theorem padFile_spec_aux (length : Nat) :
    ∀ (n : Nat) (file : List Nat), length - file.length ≤ n →
      padFile file length = file ++ List.replicate (length - file.length) 0 := by
  intro n
  induction n with
  | zero =>
    intro file h
    rw [padFile]
    simp only [show ¬0 < length - file.length by omega, dif_neg, not_false_iff]
    simp [show length - file.length = 0 by omega]
  | succ n ih =>
    intro file h
    rw [padFile]
    by_cases hd : 0 < length - file.length
    · simp only [hd, dite_true]
      rw [ih]
      · rw [List.append_assoc, ← List.replicate_add]
        have : min (length - file.length) 100000 + (length - (file ++ List.replicate
            (min (length - file.length) 100000) 0).length) = length - file.length := by
          simp only [List.length_append, List.length_replicate]
          omega
        rw [this]
      · simp only [List.length_append, List.length_replicate]
        omega
    · simp only [hd, dite_false]
      simp [show length - file.length = 0 by omega]

/-- The padding loop zero-extends the file to `length` bytes, never
touching the bytes already present. -/
theorem padFile_spec (length : Nat) (file : List Nat) :
    padFile file length = file ++ List.replicate (length - file.length) 0 :=
  padFile_spec_aux length (length - file.length) file le_rfl

/-- Reading back a path just written. -/
theorem fsGet_fsSet (fs : FS) (name : String) (c : List Nat) :
    fsGet (fsSet fs name c) name = some c := by
  simp [fsGet, fsSet]

/-! ### Claims -/

/-- Claim C1: the claim states that union yields the bytewise OR of the
two operands and intersection the bytewise AND, in particular first
bytes `0b10100000 | 0b11000000 = 0b11100000` and `0b10100000 &
0b11000000 = 0b10000000`.  The code instead rebinds the operand name to
the freshly zeroed output region before reading it, so at exactly this
input union returns first byte `0b10100000` (`self | 0`) and
intersection returns `0b00000000` (`self & 0`): the code contradicts
its own `"Implements a set union/intersection"` docstrings. -/
theorem c1_union_intersection_defect_eval :
    Bitmap.orOp { anonymous := true, size := 1, mmap := some [0b10100000], fileobj := none }
        (.bm { anonymous := true, size := 1, mmap := some [0b11000000], fileobj := none }) =
      .ok { anonymous := true, size := 1, mmap := some [0b10100000], fileobj := none } ∧
    Bitmap.andOp { anonymous := true, size := 1, mmap := some [0b10100000], fileobj := none }
        (.bm { anonymous := true, size := 1, mmap := some [0b11000000], fileobj := none }) =
      .ok { anonymous := true, size := 1, mmap := some [0b00000000], fileobj := none } := by
  constructor <;> rfl

/-- Claim C5: a non-integral index (any value failing the
`isinstance(idx, (int, long))` check) makes both `__getitem__` and
`__setitem__` fail with the `TypeError` raised before the buffer is
read or written: the error is returned with no successor state. -/
theorem c5_nonintegral_index_type_error (b : Bitmap) (idx v : PyVal)
    (h : isIntInstance idx = false) :
    b.getitem idx = .error .typeError ∧ b.setitem idx v = .error .typeError := by
  constructor <;> simp [Bitmap.getitem, Bitmap.setitem, h]

/-- Witness for C5 at a fractional and at a string index on a fresh
one-byte anonymous region. -/
theorem c5_nonintegral_index_type_error_witness :
    isIntInstance (.floatVal 1 2) = false ∧
    ((mkAnonymous 1).getitem (.floatVal 1 2) = .error .typeError ∧
      (mkAnonymous 1).setitem (.floatVal 1 2) (.intVal 1) = .error .typeError) :=
  ⟨by decide, c5_nonintegral_index_type_error (mkAnonymous 1) (.floatVal 1 2) (.intVal 1) rfl⟩

/-- Claim C6: on operands whose sizes differ, both `__or__` and
`__and__` raise the size-mismatch `ValueError` before the output region
is allocated and before anything is read or written, so no output
exists and the inputs are returned to the caller unchanged. -/
theorem c6_size_mismatch_error (a : Bitmap) (o : PyObj) (h : a.size ≠ objSize o) :
    a.orOp o = .error .sizeMismatch ∧ a.andOp o = .error .sizeMismatch := by
  constructor <;> simp [Bitmap.orOp, Bitmap.andOp, isBitmapInstance, h]

/-- Witness for C6: a one-byte and a two-byte region. -/
theorem c6_size_mismatch_error_witness :
    (mkAnonymous 1).size ≠ objSize (.bm (mkAnonymous 2)) ∧
    ((mkAnonymous 1).orOp (.bm (mkAnonymous 2)) = .error .sizeMismatch ∧
      (mkAnonymous 1).andOp (.bm (mkAnonymous 2)) = .error .sizeMismatch) :=
  ⟨by decide, c6_size_mismatch_error (mkAnonymous 1) (.bm (mkAnonymous 2)) (by decide)⟩

/-- Claim C7: constructing a file-backed region (`anonymous = false`)
without a filename fails with the configuration `ValueError`, and the
filesystem is returned exactly as it was: no file has been created,
opened or modified. -/
theorem c7_no_filename_config_error (length : Nat) (fs : FS) :
    bitmapInit length false none fs = (.error .noFilename, fs) := by
  simp [bitmapInit, filenameFalsy]

/-- Claim C10: the non-Bitmap guard of `__or__` / `__and__` tests
`isinstance(self, Bitmap)` — the receiver, not the argument — so with a
`Bitmap` receiver the `nonBitmap` error branch is unreachable for an
argument of any type, and an argument whose `size` attribute matches
the receiver's size is accepted: the call succeeds. -/
theorem c10_guard_tests_receiver (a : Bitmap) (buf : List Nat) (o oAny : PyObj)
    (hb : a.mmap = some buf) (hsz : objSize o = a.size) :
    a.orOp oAny ≠ .error .nonBitmap ∧ a.andOp oAny ≠ .error .nonBitmap ∧
    failsE (a.orOp o) = false ∧ failsE (a.andOp o) = false := by
  refine ⟨?_, ?_, ?_, ?_⟩ <;>
    [skip; skip;
      simp [Bitmap.orOp, isBitmapInstance, hsz, hb, failsE];
      simp [Bitmap.andOp, isBitmapInstance, hsz, hb, failsE]] <;>
  · by_cases hc : a.size = objSize oAny <;>
      simp [Bitmap.orOp, Bitmap.andOp, isBitmapInstance, hc, hb]

/-- Witness for C10: a one-byte region combined with a non-Bitmap
object carrying a matching `size` attribute, and with one of mismatched
size. -/
theorem c10_guard_tests_receiver_witness :
    (mkAnonymous 1).mmap = some (List.replicate 1 0) ∧
    objSize (.nonBitmapWithSize 1) = (mkAnonymous 1).size ∧
    ((mkAnonymous 1).orOp (.nonBitmapWithSize 5) ≠ .error .nonBitmap ∧
      (mkAnonymous 1).andOp (.nonBitmapWithSize 5) ≠ .error .nonBitmap ∧
      failsE ((mkAnonymous 1).orOp (.nonBitmapWithSize 1)) = false ∧
      failsE ((mkAnonymous 1).andOp (.nonBitmapWithSize 1)) = false) :=
  ⟨rfl, rfl, c10_guard_tests_receiver (mkAnonymous 1) (List.replicate 1 0)
    (.nonBitmapWithSize 1) (.nonBitmapWithSize 5) rfl rfl⟩

/-- Claim C9: on a live mapping and a valid index, `__setitem__`
returns exactly the caller-supplied `val` (line `return val`), whatever
its type and truthiness, not the coerced 0/1 bit that was stored. -/
theorem c9_setitem_returns_val (b : Bitmap) (buf : List Nat) (i : Nat) (v : PyVal)
    (hb : b.mmap = some buf) (hi : i < 8 * b.size) :
    Except.map Prod.fst (b.setitem (.intVal i) v) = .ok v := by
  rw [setitem_ok b buf i v hb hi]
  rfl

/-- Witness for C9: setting bit 0 of a one-byte region to the string
value gives back the string itself. -/
theorem c9_setitem_returns_val_witness :
    (mkAnonymous 1).mmap = some (List.replicate 1 0) ∧ 0 < 8 * (mkAnonymous 1).size ∧
    Except.map Prod.fst ((mkAnonymous 1).setitem (.intVal 0) (.strVal "x")) =
      .ok (.strVal "x") :=
  ⟨rfl, by decide,
    c9_setitem_returns_val (mkAnonymous 1) (List.replicate 1 0) 0 (.strVal "x") rfl (by decide)⟩

/-- Claim C4: on a live mapping, an integer index `i` with `i < 0` or
`8 * size ≤ i` makes both `__getitem__` and `__setitem__` fail with the
`IndexError`, while an in-range integer index raises no error at
all. -/
theorem c4_index_range_check (b : Bitmap) (buf : List Nat) (i : Int) (v : PyVal)
    (hb : b.mmap = some buf) :
    ((i < 0 ∨ 8 * (b.size : Int) ≤ i) →
      b.getitem (.intVal i) = .error .indexError ∧
      b.setitem (.intVal i) v = .error .indexError) ∧
    ((0 ≤ i ∧ i < 8 * (b.size : Int)) →
      failsE (b.getitem (.intVal i)) = false ∧
      failsE (b.setitem (.intVal i) v) = false) := by
  constructor
  · intro h
    have hcond : i / 8 < 0 ∨ (b.size : Int) ≤ i / 8 := by omega
    constructor <;> simp [Bitmap.getitem, Bitmap.setitem, isIntInstance, pyToInt, hcond]
  · intro h
    have hcond : ¬(i / 8 < 0 ∨ (b.size : Int) ≤ i / 8) := by omega
    constructor <;>
      simp [Bitmap.getitem, Bitmap.setitem, isIntInstance, pyToInt, hcond, hb, failsE]

/-- Witness for C4 at index `-1` on a one-byte region (the in-range
implication is inhabited by `c2`'s and `c9`'s witnesses). -/
theorem c4_index_range_check_witness :
    (mkAnonymous 1).mmap = some (List.replicate 1 0) ∧
    ((((-1 : Int) < 0 ∨ 8 * ((mkAnonymous 1).size : Int) ≤ -1) →
      (mkAnonymous 1).getitem (.intVal (-1)) = .error .indexError ∧
      (mkAnonymous 1).setitem (.intVal (-1)) (.intVal 1) = .error .indexError) ∧
    ((0 ≤ (-1 : Int) ∧ (-1 : Int) < 8 * ((mkAnonymous 1).size : Int)) →
      failsE ((mkAnonymous 1).getitem (.intVal (-1))) = false ∧
      failsE ((mkAnonymous 1).setitem (.intVal (-1)) (.intVal 1)) = false)) :=
  ⟨rfl, c4_index_range_check (mkAnonymous 1) (List.replicate 1 0) (-1) (.intVal 1) rfl⟩

/-- Claim C3 counterexample: the claim demands that every get/set/flush
on a closed instance fail, including `flush` on a closed anonymous
region; but closing a one-byte anonymous region and then flushing it
silently succeeds, because `flush` skips `self.mmap.flush()` for
anonymous maps and `self.fileobj` is `None`. -/
theorem c3_closed_anonymous_flush_succeeds :
    Bitmap.close (mkAnonymous 1) =
      .ok { anonymous := true, size := 1, mmap := none, fileobj := none } ∧
    Bitmap.flushOp { anonymous := true, size := 1, mmap := none, fileobj := none } =
      .ok () := by
  constructor <;> rfl

/-- Claim C3 as amended: after `close`, every `__getitem__` and
`__setitem__` call fails (with `TypeError`, `IndexError`, or the error
from subscripting the `None` mapping), and `flush` fails on a closed
file-backed region; but `flush` on a closed anonymous region is a
silent no-op that succeeds. -/
theorem c3_closed_ops_fail (b0 b : Bitmap) (idx v : PyVal)
    (h : b0.close = .ok b) :
    failsE (b.getitem idx) = true ∧
    failsE (b.setitem idx v) = true ∧
    (b.anonymous = false → failsE b.flushOp = true) ∧
    (b.anonymous = true → b.flushOp = .ok ()) := by
  have hm : b.mmap = none := by
    unfold Bitmap.close at h
    cases hf : b0.flushOp with
    | error e => rw [hf] at h; exact absurd h (by simp)
    | ok u =>
      rw [hf] at h
      cases hmm : b0.mmap with
      | none => rw [hmm] at h; exact absurd h (by simp)
      | some buf =>
        rw [hmm] at h
        simp only [Except.ok.injEq] at h
        rw [← h]
  refine ⟨?_, ?_, ?_, ?_⟩
  · unfold Bitmap.getitem
    cases hint : isIntInstance idx
    · simp [failsE]
    · simp only [Bool.not_true, Bool.false_eq_true, if_false]
      by_cases hrange : pyToInt idx / 8 < 0 ∨ (b.size : Int) ≤ pyToInt idx / 8 <;>
        simp [hrange, hm, failsE]
  · unfold Bitmap.setitem
    cases hint : isIntInstance idx
    · simp [failsE]
    · simp only [Bool.not_true, Bool.false_eq_true, if_false]
      by_cases hrange : pyToInt idx / 8 < 0 ∨ (b.size : Int) ≤ pyToInt idx / 8 <;>
        simp [hrange, hm, failsE]
  · intro ha
    simp [Bitmap.flushOp, ha, hm, failsE]
  · intro ha
    simp [Bitmap.flushOp, ha, hm]

/-- Witness for C3's amended theorem: the closed one-byte anonymous
region, probed at index 0 and value 1. -/
theorem c3_closed_ops_fail_witness :
    Bitmap.close (mkAnonymous 1) =
      .ok { anonymous := true, size := 1, mmap := none, fileobj := none } ∧
    (failsE (Bitmap.getitem { anonymous := true, size := 1, mmap := none, fileobj := none }
        (.intVal 0)) = true ∧
      failsE (Bitmap.setitem { anonymous := true, size := 1, mmap := none, fileobj := none }
        (.intVal 0) (.intVal 1)) = true ∧
      (Bitmap.anonymous { anonymous := true, size := 1, mmap := none, fileobj := none } = false →
        failsE (Bitmap.flushOp { anonymous := true, size := 1, mmap := none, fileobj := none }) =
          true) ∧
      (Bitmap.anonymous { anonymous := true, size := 1, mmap := none, fileobj := none } = true →
        Bitmap.flushOp { anonymous := true, size := 1, mmap := none, fileobj := none } =
          .ok ())) :=
  ⟨rfl, c3_closed_ops_fail (mkAnonymous 1)
    { anonymous := true, size := 1, mmap := none, fileobj := none }
    (.intVal 0) (.intVal 1) rfl⟩

/-- Claim C8: constructing a file-backed region over a file that is
absent (opened `"a+"`, hence created empty) or shorter than `length`
zero-extends it: the padding loop terminates, the file on disk ends up
holding its pre-existing bytes followed by exactly the missing number
of zero bytes (never truncated or overwritten), its length is `length`,
and the mapping created afterwards sees exactly those bytes. -/
theorem c8_file_zero_extension (length : Nat) (name : String) (fs : FS)
    (contents : List Nat) (hname : name.isEmpty = false)
    (hc : (fsGet fs name).getD [] = contents) (hlen : contents.length < length) :
    (bitmapInit length false (some name) fs).1 =
      .ok { anonymous := false, size := length,
            mmap := some (contents ++ List.replicate (length - contents.length) 0),
            fileobj := some () } ∧
    fsGet (bitmapInit length false (some name) fs).2 name =
      some (contents ++ List.replicate (length - contents.length) 0) ∧
    (contents ++ List.replicate (length - contents.length) 0).length = length := by
  have hplen : (contents ++ List.replicate (length - contents.length) 0).length = length := by
    simp only [List.length_append, List.length_replicate]
    omega
  have htake : (contents ++ List.replicate (length - contents.length) 0).take length =
      contents ++ List.replicate (length - contents.length) 0 :=
    List.take_of_length_le (by omega)
  have key : bitmapInit length false (some name) fs =
      (.ok { anonymous := false, size := length,
             mmap := some (contents ++ List.replicate (length - contents.length) 0),
             fileobj := some () },
        fsSet fs name (contents ++ List.replicate (length - contents.length) 0)) := by
    simp only [bitmapInit, filenameFalsy, hname, Bool.false_eq_true, if_false,
      Option.getD_some, hc, padFile_spec, htake]
  rw [key]
  exact ⟨rfl, fsGet_fsSet fs name _, hplen⟩

/-- Witness for C8: a three-byte region over an absent file on an empty
filesystem. -/
theorem c8_file_zero_extension_witness :
    "f".isEmpty = false ∧
    (fsGet (fun _ => none) "f").getD [] = ([] : List Nat) ∧
    (0 : Nat) < 3 ∧
    ((bitmapInit 3 false (some "f") (fun _ => none)).1 =
      .ok { anonymous := false, size := 3,
            mmap := some ([] ++ List.replicate 3 0), fileobj := some () } ∧
    fsGet (bitmapInit 3 false (some "f") (fun _ => none)).2 "f" =
      some ([] ++ List.replicate 3 0) ∧
    (([] : List Nat) ++ List.replicate 3 0).length = 3) :=
  ⟨rfl, rfl, by decide,
    c8_file_zero_extension 3 "f" (fun _ => none) [] rfl rfl (by decide)⟩

/-- Claim C2: on a live mapping with its full-size buffer, setting a
valid bit `i` to a truthy value and reading it back gives 1, setting it
to a falsy value gives 0, and any other bit `j` of the same byte reads
the same after the set as before it. -/
theorem c2_set_then_get (b b' : Bitmap) (buf : List Nat) (i j : Nat) (v : PyVal)
    (hb : b.mmap = some buf) (hlen : buf.length = b.size)
    (hi : i < 8 * b.size) (hj : j < 8 * b.size) (hij : j ≠ i) (hsame : j / 8 = i / 8)
    (hset : b.setitem (.intVal i) v = .ok (v, b')) :
    b'.getitem (.intVal i) = .ok (if pyTruthy v then 1 else 0) ∧
    b'.getitem (.intVal j) = b.getitem (.intVal j) := by
  rw [setitem_ok b buf i v hb hi] at hset
  simp only [Except.ok.injEq, Prod.mk.injEq, true_and] at hset
  subst hset
  set newByte := if pyTruthy v then buf.getD (i / 8) 0 ||| (1 <<< (7 - i % 8))
    else buf.getD (i / 8) 0 ^^^ (buf.getD (i / 8) 0 &&& (1 <<< (7 - i % 8))) with hnew
  have hdiv : i / 8 < buf.length := by omega
  have hread : (buf.set (i / 8) newByte).getD (i / 8) 0 = newByte := by
    rw [List.getD_eq_getElem?_getD, List.getElem?_set_self hdiv, Option.getD_some]
  have hoff : 7 - i % 8 ≠ 7 - j % 8 := by omega
  constructor
  · rw [getitem_ok { b with mmap := some (buf.set (i / 8) newByte) }
      (buf.set (i / 8) newByte) i rfl hi, hread]
    rw [shiftr_and_one]
    cases hpv : pyTruthy v
    · rw [hnew]
      simp only [hpv, Bool.false_eq_true, if_false]
      rw [clearBit_testBit_self]
      rfl
    · rw [hnew]
      simp only [hpv, if_true]
      rw [setBit_testBit_self]
      rfl
  · rw [getitem_ok { b with mmap := some (buf.set (i / 8) newByte) }
      (buf.set (i / 8) newByte) j rfl hj, getitem_ok b buf j hb hj]
    rw [hsame, hread, shiftr_and_one, shiftr_and_one]
    cases hpv : pyTruthy v
    · rw [hnew]
      simp only [hpv, Bool.false_eq_true, if_false]
      rw [clearBit_testBit_ne _ _ _ hoff]
    · rw [hnew]
      simp only [hpv, if_true]
      rw [setBit_testBit_ne _ _ _ hoff]

/-- Witness for C2: set bit 0 of a one-byte region to the truthy integer
7; bit 0 then reads 1 and bit 1 reads as before. -/
theorem c2_set_then_get_witness :
    (mkAnonymous 1).mmap = some (List.replicate 1 0) ∧
    (mkAnonymous 1).setitem (.intVal 0) (.intVal 7) =
      .ok (.intVal 7, { anonymous := true, size := 1, mmap := some [128], fileobj := none }) ∧
    (Bitmap.getitem { anonymous := true, size := 1, mmap := some [128], fileobj := none }
        (.intVal 0) = .ok (if pyTruthy (.intVal 7) then 1 else 0) ∧
      Bitmap.getitem { anonymous := true, size := 1, mmap := some [128], fileobj := none }
        (.intVal 1) = (mkAnonymous 1).getitem (.intVal 1)) :=
  ⟨rfl, rfl,
    c2_set_then_get (mkAnonymous 1)
      { anonymous := true, size := 1, mmap := some [128], fileobj := none }
      (List.replicate 1 0) 0 1 (.intVal 7) rfl rfl (by decide) (by decide) (by decide)
      (by decide) rfl⟩

end PyBlooming
